import Mathlib

/-!
Verification of the SupportMyCamp voucher scraper (scraper.py).

This file gives a shallow embedding of the scraper's core functions —
the run lock (ScraperLock.acquire), the retrying HTTP client
(make_request_with_retry), the paginated club enumerator
(fetch_clubs_with_params / fetch_all_clubs), the per-club stats collector
(fetch_club_stats / fetch_all_club_stats), the payout aggregator
(calculate_payouts), the snapshot writer (save_data) and the main pipeline
(main) — and proves or refutes the specification's claims about them.

Modelling conventions:
- Python floats are modelled as exact rationals (ℚ); Python's built-in
  round(x, 2) is round-half-to-even at two decimals, modelled by pyRound2.
- HTTP traffic is modelled by mock response sequences: a walk consumes a
  list of optional page responses (none models a request whose retries
  were exhausted, or a body without a "results" key); the per-club stats
  endpoint is a function from publicId to an optional response.
- Wall-clock timestamps and log output are abstracted away; no claim
  concerns them.
- Python dict keys that may be absent are modelled as Option fields.
-/

unseal Rat.mul Rat.inv Rat.add Rat.sub

/-! ## Numeric model: Python rounding on exact rationals -/

/-- Computable floor of a rational, mirroring num/den integer division. -/
def ratFloor (q : ℚ) : ℤ := q.num / q.den

theorem ratFloor_eq (q : ℚ) : ratFloor q = ⌊q⌋ := by
  rw [Rat.floor_def]; rfl

/-- Python's round-half-to-even on a rational, to the nearest integer. -/
def roundHalfEven (x : ℚ) : ℤ :=
  if x - ratFloor x < 1/2 then ratFloor x
  else if 1/2 < x - ratFloor x then ratFloor x + 1
  else if ratFloor x % 2 = 0 then ratFloor x else ratFloor x + 1

/-- Standard rounding (round half away from zero) to the nearest integer. -/
def roundHalfAway (x : ℚ) : ℤ :=
  if 0 ≤ x then ⌊x + 1/2⌋ else -⌊-x + 1/2⌋

/-- Python's round(x, 2): round half to even at two decimal places. -/
def pyRound2 (x : ℚ) : ℚ := (roundHalfEven (x * 100) : ℚ) / 100

/-- Standard rounding (half away from zero) at two decimal places. -/
def roundAway2 (x : ℚ) : ℚ := (roundHalfAway (x * 100) : ℚ) / 100

theorem roundHalfEven_intCast (m : ℤ) : roundHalfEven (m : ℚ) = m := by
  unfold roundHalfEven
  rw [ratFloor_eq, Int.floor_intCast]
  norm_num

theorem floor_half_q : ⌊(1/2 : ℚ)⌋ = 0 := by
  rw [Int.floor_eq_zero_iff]
  constructor <;> norm_num

theorem roundHalfAway_intCast (m : ℤ) : roundHalfAway (m : ℚ) = m := by
  unfold roundHalfAway
  split_ifs with h
  · rw [add_comm, Int.floor_add_int, floor_half_q, zero_add]
  · rw [show (-(m : ℚ)) = ((-m : ℤ) : ℚ) by push_cast; ring,
      add_comm, Int.floor_add_int, floor_half_q, zero_add, neg_neg]

theorem pyRound2_intCast_div (m : ℤ) : pyRound2 ((m : ℚ) / 100) = (m : ℚ) / 100 := by
  unfold pyRound2
  rw [div_mul_cancel₀ _ (by norm_num : (100 : ℚ) ≠ 0), roundHalfEven_intCast]

theorem roundAway2_intCast_div (m : ℤ) : roundAway2 ((m : ℚ) / 100) = (m : ℚ) / 100 := by
  unfold roundAway2
  rw [div_mul_cancel₀ _ (by norm_num : (100 : ℚ) ≠ 0), roundHalfAway_intCast]

theorem abs_roundHalfEven_sub (x : ℚ) : |(roundHalfEven x : ℚ) - x| ≤ 1/2 := by
  have h1 : ((⌊x⌋ : ℤ) : ℚ) ≤ x := Int.floor_le x
  have h2 : x < (⌊x⌋ : ℚ) + 1 := Int.lt_floor_add_one x
  unfold roundHalfEven
  rw [ratFloor_eq]
  split_ifs with ha hb hc <;> rw [abs_le] <;> push_cast <;> constructor <;> linarith

theorem abs_pyRound2_sub (x : ℚ) : |pyRound2 x - x| ≤ 1/200 := by
  have h := abs_roundHalfEven_sub (x * 100)
  unfold pyRound2
  have hx : (roundHalfEven (x * 100) : ℚ) / 100 - x =
      ((roundHalfEven (x * 100) : ℚ) - x * 100) / 100 := by ring
  rw [hx, abs_div, abs_of_pos (by norm_num : (0:ℚ) < 100)]
  rw [div_le_div_iff₀ (by norm_num) (by norm_num : (0:ℚ) < 200)]
  nlinarith [h]

/-! ## Configuration constants (scraper.py lines 23-31) -/

def PAGE_SIZE : Nat := 100

def RATE_LIMIT_DELAY : ℚ := 2/100

def RETRY_ATTEMPTS : Nat := 3

def RETRY_DELAYS : List ℚ := [1/10, 2/10, 4/10]

def LOCK_TIMEOUT : ℚ := 600

def TOTAL_PRIZE_POOL : ℚ := 3000000

/-! ## ScraperLock (scraper.py lines 59-105)

A lock artifact is a file; its modification time is the staleness clock and
its content is the owner's process id (the source writes str(os.getpid())).
-/

structure LockFile where
  mtime : ℚ
  content : Int
deriving DecidableEq

/-- Result of ScraperLock.acquire: either the ScraperLockError raised when a
fresh lock exists, or successful acquisition (recording whether a stale lock
was warned about and removed, and the newly written lock file). -/
inductive AcquireResult
  | lockHeld (age : ℚ)
  | acquired (removedStale : Bool) (newLock : LockFile)
deriving DecidableEq

def AcquireResult.isHeld : AcquireResult → Bool
  | .lockHeld _ => true
  | .acquired _ _ => false

/-- ScraperLock.acquire (lines 79-98): if the lock file exists and its age
(now minus mtime) is below the timeout, raise ScraperLockError; if it exists
but is at least as old as the timeout, warn, unlink it and proceed; then
create the lock file owned by pid. -/
def ScraperLock.acquire (existing : Option LockFile) (now : ℚ) (timeout : ℚ)
    (pid : Int) : AcquireResult :=
  match existing with
  | some lf =>
    if now - lf.mtime < timeout then .lockHeld (now - lf.mtime)
    else .acquired true ⟨now, pid⟩
  | none => .acquired false ⟨now, pid⟩

/-! ## make_request_with_retry (scraper.py lines 108-186)

The outcome of each underlying HTTP attempt is given by a function from the
attempt index; the three failure branches of the source (HTTPError,
JSONDecodeError, other RequestException/ValueError) share the same retry
control flow. The model returns the payload (none when all attempts failed;
the source returns None rather than raising) together with the list of
sleep durations performed, in order. -/

inductive FetchOutcome (α : Type)
  | success (payload : α)
  | httpError
  | jsonError
  | requestError

def FetchOutcome.isSuccess {α : Type} : FetchOutcome α → Bool
  | .success _ => true
  | _ => false

/-- Delay before retry number attempt+1: RETRY_DELAYS[min(attempt, len-1)]. -/
def retryDelay (attempt : Nat) : ℚ :=
  RETRY_DELAYS.getD (min attempt (RETRY_DELAYS.length - 1)) 0

def retryGo {α : Type} (f : Nat → FetchOutcome α) (total : Nat) :
    List Nat → List ℚ → Option α × List ℚ
  | [], sleeps => (none, sleeps)
  | a :: rest, sleeps =>
    match f a with
    | .success p => (some p, sleeps)
    | _ =>
      if a < total - 1 then retryGo f total rest (sleeps ++ [retryDelay a])
      else (none, sleeps)

def make_request_with_retry {α : Type} (f : Nat → FetchOutcome α)
    (retry_count : Nat) : Option α × List ℚ :=
  retryGo f retry_count (List.range retry_count) []

/-! ## Club enumeration (scraper.py lines 189-359)

A listing-endpoint response body: the results array (entries may lack the
publicId or name keys), an optional totalCount and an optional next cursor.
A request either yields such a body or fails (none: retries exhausted, or a
body without a "results" key — both break the walk at line 225). -/

structure RawClub where
  publicId : Option String
  name : Option String
deriving DecidableEq

structure PageResponse where
  results : List RawClub
  totalCount : Option Nat
  next : Option String
deriving DecidableEq

/-- Python set add (line 246-247): the club tuple is inserted only if not
already present; the set is modelled as a duplicate-free list in insertion
order. -/
def insertClub (s : List (String × String)) (t : String × String) :
    List (String × String) :=
  if t ∈ s then s else s ++ [t]

/-- Lines 243-248: for each club in the page with both publicId and name,
add the (publicId, name) tuple to the set. -/
def addPageClubs (s : List (String × String)) (results : List RawClub) :
    List (String × String) :=
  results.foldl (fun acc club =>
    match club.publicId, club.name with
    | some p, some n => insertClub acc (p, n)
    | _, _ => acc) s

/-- Has the walk-local set size reached the walk-local totalCount? (line 253) -/
def reachedCount (tc : Option Nat) (n : Nat) : Bool :=
  match tc with
  | some t => decide (t ≤ n)
  | none => false

/-- Line 230-231: the walk's totalCount is taken from the first response of
this walk that carries one, and is never overwritten afterwards. -/
def tcUpdate (tc : Option Nat) (page : PageResponse) : Option Nat :=
  match tc with
  | some t => some t
  | none => page.totalCount

/-- Why the pagination loop of fetch_clubs_with_params exited. -/
inductive StopReason
  | fetchFailed
  | emptyPage
  | reachedTotal
  | noNext
  | stuckCursor
deriving DecidableEq

structure WalkResult where
  clubsSet : List (String × String)
  totalCount : Option Nat
  pagesFetched : Nat
  reason : StopReason
deriving DecidableEq

/-- The while-True loop of fetch_clubs_with_params (lines 216-272), consuming
one mock response per request. State: the accumulated club set, the first
totalCount seen in this walk (line 230), and the previous next-cursor
(last_cursor, line 266). An exhausted response list behaves like a failed
request. -/
def walkGo (s : List (String × String)) (tc : Option Nat)
    (lastCur : Option String) : List (Option PageResponse) → WalkResult
  | [] => ⟨s, tc, 0, .fetchFailed⟩
  | none :: _ => ⟨s, tc, 1, .fetchFailed⟩
  | some page :: rest =>
    let tc' := tcUpdate tc page
    if page.results.isEmpty then ⟨s, tc', 1, .emptyPage⟩
    else
      let s' := addPageClubs s page.results
      if reachedCount tc' s'.length then ⟨s', tc', 1, .reachedTotal⟩
      else
        match page.next with
        | none => ⟨s', tc', 1, .noNext⟩
        | some c =>
          if lastCur = some c then ⟨s', tc', 1, .stuckCursor⟩
          else
            let r := walkGo s' tc' (some c) rest
            ⟨r.clubsSet, r.totalCount, r.pagesFetched + 1, r.reason⟩

/-- fetch_clubs_with_params (lines 189-274): run one walk from the empty
set and return the set of (publicId, name) tuples it accumulated. The
ordering / age-group parameters only shape the request URL, so in the mock
model they are captured by which response sequence is supplied. -/
def fetch_clubs_with_params (responses : List (Option PageResponse)) :
    List (String × String) :=
  (walkGo [] none none responses).clubsSet

/-! Specification-style reformulation of the walk, used to state the
termination conditions as amended: a step function that either stops with a
reason or continues, and a driver folding it over the responses. -/

structure SpecSt where
  found : List (String × String)
  firstTotal : Option Nat
  prevCursor : Option String
deriving DecidableEq

/-- Modelled from the amended claim wording: after merging a page, the walk
stops when the page is empty, when the walk's own accumulated set size has
reached the first totalCount reported by this walk's responses, when the
response provides no next cursor, or when the returned cursor equals the
immediately preceding cursor. -/
def specStep (st : SpecSt) (page : PageResponse) :
    SpecSt ⊕ (SpecSt × StopReason) :=
  let tot := tcUpdate st.firstTotal page
  if page.results.isEmpty then .inr (⟨st.found, tot, st.prevCursor⟩, .emptyPage)
  else
    let found' := addPageClubs st.found page.results
    if reachedCount tot found'.length then
      .inr (⟨found', tot, st.prevCursor⟩, .reachedTotal)
    else
      match page.next with
      | none => .inr (⟨found', tot, none⟩, .noNext)
      | some c =>
        if st.prevCursor = some c then .inr (⟨found', tot, some c⟩, .stuckCursor)
        else .inl ⟨found', tot, some c⟩

def specRun (st : SpecSt) : List (Option PageResponse) → SpecSt × Nat × StopReason
  | [] => (st, 0, .fetchFailed)
  | none :: _ => (st, 1, .fetchFailed)
  | some p :: rest =>
    match specStep st p with
    | .inr str => (str.1, 1, str.2)
    | .inl st' =>
      let r := specRun st' rest
      (r.1, r.2.1 + 1, r.2.2)

/-- Modelled from the spec claim's words (not from the source): a walk that
merges pages into the run's global deduplicated set and terminates as soon
as the global set size has reached a totalCount value reported by any prior
response in this run (prior walks' totals are passed in; totals reported by
this walk's own responses are appended as they arrive), or on an empty page,
a missing next cursor, or a repeated cursor. Returns the global set and the
number of pages fetched. -/
def claimWalkGo (global : List (String × String)) (priorTotals : List Nat)
    (lastCur : Option String) :
    List (Option PageResponse) → List (String × String) × Nat
  | [] => (global, 0)
  | none :: _ => (global, 1)
  | some page :: rest =>
    let totals := match page.totalCount with
      | some t => priorTotals ++ [t]
      | none => priorTotals
    if page.results.isEmpty then (global, 1)
    else
      let g' := addPageClubs global page.results
      if totals.any (fun t => decide (t ≤ g'.length)) then (g', 1)
      else
        match page.next with
        | none => (g', 1)
        | some c =>
          if lastCur = some c then (g', 1)
          else
            let r := claimWalkGo g' totals (some c) rest
            (r.1, r.2 + 1)

/-! ## fetch_all_clubs (scraper.py lines 277-359)

The mock listing API supplies, for each (ordering, age-group) parameter
pair, the sequence of responses its walk will consume, and for the separate
expected-total request of lines 311-314 (issued per ordering) one optional
response. -/

structure ClubIdentity where
  publicId : String
  name : String
deriving DecidableEq

structure MockApi where
  walkPages : Option String → Option String → List (Option PageResponse)
  extra : Option String → Option PageResponse

/-- Strategy tier 1 ordering list (lines 291-299). -/
def orderings : List (Option String) :=
  [none, some "voucher_count", some "-voucher_count", some "member_count",
   some "-member_count", some "name", some "-name"]

/-- Age groups of strategy tier 2 (line 326). -/
def age_groups : List String := ["0_5", "6_11", "12_15", "16_99"]

/-- Orderings retried per age group in tier 2 (line 332). -/
def tier2Orderings : List (Option String) :=
  [none, some "voucher_count", some "-voucher_count"]

/-- Python set.update (line 305): insert each element of the walk's set into
the global set. -/
def unionClubs (global : List (String × String))
    (clubs : List (String × String)) : List (String × String) :=
  clubs.foldl insertClub global

/-- Lines 301-322: one walk per ordering; after a walk with a non-empty
result while expected_total is still unset, issue the extra totalCount
request; stop as soon as the global set size reaches expected_total. -/
def tier1 (api : MockApi) : List (String × String) → Option Nat →
    List (Option String) → List (String × String) × Option Nat
  | global, expected, [] => (global, expected)
  | global, expected, ord :: rest =>
    let clubs := fetch_clubs_with_params (api.walkPages ord none)
    let global' := unionClubs global clubs
    let expected' :=
      if expected.isNone ∧ clubs.length > 0 then
        match api.extra ord with
        | some d => d.totalCount
        | none => none
      else expected
    if reachedCount expected' global'.length then (global', expected')
    else tier1 api global' expected' rest

/-- Lines 331-339: inner loop of tier 2, over the reduced ordering list for
one age group. expected_total is never updated here. -/
def tier2Inner (api : MockApi) (ag : String) :
    List (String × String) → Option Nat → List (Option String) →
    List (String × String)
  | global, _, [] => global
  | global, expected, ord :: rest =>
    let clubs := fetch_clubs_with_params (api.walkPages ord (some ag))
    let global' := unionClubs global clubs
    if reachedCount expected global'.length then global'
    else tier2Inner api ag global' expected rest

/-- Lines 328-345: outer loop of tier 2 over the age groups. -/
def tier2 (api : MockApi) :
    List (String × String) → Option Nat → List String →
    List (String × String)
  | global, _, [] => global
  | global, expected, ag :: rest =>
    let global' := tier2Inner api ag global expected tier2Orderings
    if reachedCount expected global'.length then global'
    else tier2 api global' expected rest

/-- Lines 301-345 combined: tier 1 over the seven orderings, then — only if
the expected total is unknown or not yet reached (line 325) — tier 2 over
the age groups. Returns the final global set of (publicId, name) tuples. -/
def fetchAllClubsSet (api : MockApi) : List (String × String) :=
  match tier1 api [] none orderings with
  | (g1, none) => tier2 api g1 none age_groups
  | (g1, some t) =>
    if g1.length < t then tier2 api g1 (some t) age_groups else g1

/-- fetch_all_clubs (lines 277-359): both strategy tiers, finally converting
the set of tuples to a list of club dicts (lines 348-351). -/
def fetch_all_clubs (api : MockApi) : List ClubIdentity :=
  (fetchAllClubsSet api).map (fun pr => ⟨pr.1, pr.2⟩)

/-! ## Per-club stats (scraper.py lines 362-442)

A stats-endpoint body: every field optional, mirroring dict.get. The stats
API is a function from publicId to an optional body (none models a fetch
whose retries were exhausted). -/

structure StatsResponse where
  voucherCount : Option Int
  leaderboardRank : Option Int
  fanCount : Option Int
  donationSum : Option ℚ
deriving DecidableEq

/-- fetch_club_stats (lines 362-385): a failed fetch returns none; a body
missing the required voucherCount field also returns none; otherwise the
body is returned unchanged. -/
def fetch_club_stats (data : Option StatsResponse) : Option StatsResponse :=
  match data with
  | none => none
  | some d => if d.voucherCount.isSome then some d else none

/-- The club_data dict assembled at lines 423-430. -/
structure ClubStats where
  publicId : String
  name : String
  leaderboardRank : Option Int
  fanCount : Option Int
  donationSum : Option ℚ
  voucherCount : Int
deriving DecidableEq

/-- fetch_all_club_stats (lines 388-442): for each club, fetch its stats;
on failure skip the club and continue with the rest; on success append the
combined record, where voucherCount is stats.get("voucherCount", 0). -/
def fetch_all_club_stats (clubs : List ClubIdentity)
    (api : String → Option StatsResponse) : List ClubStats :=
  match clubs with
  | [] => []
  | c :: rest =>
    match fetch_club_stats (api c.publicId) with
    | none => fetch_all_club_stats rest api
    | some stats =>
      ⟨c.publicId, c.name, stats.leaderboardRank, stats.fanCount,
        stats.donationSum, stats.voucherCount.getD 0⟩ ::
        fetch_all_club_stats rest api

/-! ## calculate_payouts (scraper.py lines 445-478) -/

/-- A club record after the loop of lines 467-469 added estimatedPayout. -/
structure ClubRecord extends ClubStats where
  estimatedPayout : ℚ
deriving DecidableEq

/-- RunMetadata (lines 471-476); the wall-clock timestamp field is
abstracted away. -/
structure Metadata where
  totalClubs : Nat
  totalVouchers : Int
  voucherWorth : ℚ
deriving DecidableEq

/-- calculate_payouts (lines 445-478): total_vouchers is the sum of
voucherCount; voucher_worth is round(TOTAL_PRIZE_POOL / total_vouchers, 2),
or 0.0 when total_vouchers is 0; each club gains
estimatedPayout = round(voucherCount * voucher_worth, 2); the input list is
updated in place and returned together with the metadata. -/
def calculate_payouts (clubs_stats : List ClubStats) :
    List ClubRecord × Metadata :=
  let total_vouchers : Int := (clubs_stats.map (fun c => c.voucherCount)).sum
  let voucher_worth : ℚ :=
    if total_vouchers = 0 then 0
    else pyRound2 (TOTAL_PRIZE_POOL / (total_vouchers : ℚ))
  (clubs_stats.map (fun c =>
      ⟨c, pyRound2 ((c.voucherCount : ℚ) * voucher_worth)⟩),
   ⟨clubs_stats.length, total_vouchers, voucher_worth⟩)

/-! ## save_data and main (scraper.py lines 481-554) -/

structure Snapshot where
  metadata : Metadata
  clubs : List ClubRecord
deriving DecidableEq

/-- save_data (lines 481-512) writes the snapshot twice: once to the
timestamped file and once to latest.json, with identical content. -/
structure SavedArtifacts where
  timestamped : Snapshot
  latest : Snapshot
deriving DecidableEq

def save_data (clubs_with_payouts : List ClubRecord) (metadata : Metadata) :
    SavedArtifacts :=
  ⟨⟨metadata, clubs_with_payouts⟩, ⟨metadata, clubs_with_payouts⟩⟩

/-- Observable outcome of one run of main (lines 515-554): the artifacts
written (none when the run aborted before save_data) and whether the lock
was released (the with-statement releases it on every exit path after
acquisition). -/
structure RunArtifacts where
  written : Option SavedArtifacts
  lockReleased : Bool
deriving DecidableEq

/-- main (lines 522-547), from the point after the lock is acquired: fetch
the club list; abort if it is empty (line 528); otherwise fetch stats,
calculate payouts and save — there is no abort on an empty stats list. -/
def mainRun (enumApi : MockApi) (statsApi : String → Option StatsResponse) :
    RunArtifacts :=
  let clubs := fetch_all_clubs enumApi
  if clubs.isEmpty then ⟨none, true⟩
  else
    let clubs_stats := fetch_all_club_stats clubs statsApi
    let pm := calculate_payouts clubs_stats
    ⟨some (save_data pm.1 pm.2), true⟩

/-! ## Claims C6, C8, C10 -/

/-- C6: ScraperLock.acquire fails with the lock-held error exactly when a
lock artifact exists whose age is below the configured timeout (default
600s); when an artifact exists whose age is not below the timeout, the
stale artifact is removed with a warning and acquisition succeeds, writing
a new artifact containing the caller's process identifier. -/
theorem c6_lock_acquire (existing : Option LockFile) (now timeout : ℚ)
    (pid : Int) :
    ((ScraperLock.acquire existing now timeout pid).isHeld = true ↔
      ∃ lf, existing = some lf ∧ now - lf.mtime < timeout)
    ∧ (∀ lf, existing = some lf → timeout ≤ now - lf.mtime →
        ScraperLock.acquire existing now timeout pid =
          .acquired true ⟨now, pid⟩)
    ∧ (existing = none →
        ScraperLock.acquire existing now timeout pid =
          .acquired false ⟨now, pid⟩)
    ∧ LOCK_TIMEOUT = 600 := by
  refine ⟨?_, ?_, ?_, rfl⟩
  · cases existing with
    | none => simp [ScraperLock.acquire, AcquireResult.isHeld]
    | some lf =>
      by_cases h : now - lf.mtime < timeout <;>
        simp [ScraperLock.acquire, AcquireResult.isHeld, h]
  · intro lf hlf hage
    subst hlf
    simp [ScraperLock.acquire, not_lt.mpr hage]
  · intro h
    subst h
    rfl

theorem c6_lock_acquire_witness :
    ScraperLock.acquire (some ⟨0, 111⟩) 700 600 222 =
        .acquired true ⟨700, 222⟩
    ∧ (ScraperLock.acquire (some ⟨0, 111⟩) 10 600 222).isHeld = true :=
  ⟨(c6_lock_acquire (some ⟨0, 111⟩) 700 600 222).2.1 ⟨0, 111⟩ rfl (by norm_num),
   (c6_lock_acquire (some ⟨0, 111⟩) 10 600 222).1.mpr
     ⟨⟨0, 111⟩, rfl, by norm_num⟩⟩

/-- C8: with the default attempt count 3 and delay schedule 0.1s, 0.2s,
0.4s, a fetch failing on attempts 1 and 2 and succeeding on attempt 3
returns the attempt-3 payload after sleeping exactly 0.1s then 0.2s, in
that order; when all three attempts fail it returns the failure value none
(rather than raising). -/
theorem c8_retry_schedule {α : Type} (f : Nat → FetchOutcome α) (p : α)
    (h0 : (f 0).isSuccess = false) (h1 : (f 1).isSuccess = false)
    (h2 : f 2 = .success p) :
    make_request_with_retry f RETRY_ATTEMPTS = (some p, [1/10, 2/10])
    ∧ ∀ g : Nat → FetchOutcome α,
        (∀ a, a < RETRY_ATTEMPTS → (g a).isSuccess = false) →
        make_request_with_retry g RETRY_ATTEMPTS = (none, [1/10, 2/10]) := by
  constructor
  · show retryGo f 3 [0, 1, 2] [] = _
    cases hf0 : f 0 with
    | success q => rw [hf0] at h0; simp [FetchOutcome.isSuccess] at h0
    | httpError | jsonError | requestError =>
      cases hf1 : f 1 with
      | success q => rw [hf1] at h1; simp [FetchOutcome.isSuccess] at h1
      | httpError | jsonError | requestError =>
        simp [retryGo, hf0, hf1, h2, retryDelay, RETRY_DELAYS]
  · intro g hg
    have hg0 := hg 0 (by norm_num [RETRY_ATTEMPTS])
    have hg1 := hg 1 (by norm_num [RETRY_ATTEMPTS])
    have hg2 := hg 2 (by norm_num [RETRY_ATTEMPTS])
    show retryGo g 3 [0, 1, 2] [] = _
    cases hf0 : g 0 with
    | success q => rw [hf0] at hg0; simp [FetchOutcome.isSuccess] at hg0
    | httpError | jsonError | requestError =>
      cases hf1 : g 1 with
      | success q => rw [hf1] at hg1; simp [FetchOutcome.isSuccess] at hg1
      | httpError | jsonError | requestError =>
        cases hf2 : g 2 with
        | success q => rw [hf2] at hg2; simp [FetchOutcome.isSuccess] at hg2
        | httpError | jsonError | requestError =>
          simp [retryGo, hf0, hf1, hf2, retryDelay, RETRY_DELAYS]

/-- Attempt outcomes for the retry witness: attempts 1 and 2 fail, attempt
3 succeeds with payload 7. -/
def c8f : Nat → FetchOutcome Nat := fun n =>
  if n = 2 then .success 7 else .httpError

theorem c8_retry_schedule_witness :
    (c8f 0).isSuccess = false ∧ (c8f 1).isSuccess = false
    ∧ c8f 2 = .success 7
    ∧ make_request_with_retry c8f RETRY_ATTEMPTS = (some 7, [1/10, 2/10]) :=
  ⟨rfl, rfl, rfl, (c8_retry_schedule c8f 7 rfl rfl rfl).1⟩

/-- C10: calculate_payouts returns exactly the input records, in order,
with only the estimatedPayout field added: stripping that field from the
returned list yields the input list again, so every other field is
unchanged and no record is added, removed or reordered. -/
theorem map_toClubStats (l : List ClubStats) (f : ClubStats → ℚ) :
    (l.map (fun c => (⟨c, f c⟩ : ClubRecord))).map (fun r => r.toClubStats)
      = l := by
  induction l with
  | nil => rfl
  | cons c rest ih => simp [ih]

theorem c10_frame_condition (clubs_stats : List ClubStats) :
    ((calculate_payouts clubs_stats).1).map (fun r => r.toClubStats)
        = clubs_stats
    ∧ ((calculate_payouts clubs_stats).1).length = clubs_stats.length := by
  exact ⟨map_toClubStats clubs_stats _, by simp [calculate_payouts]⟩

/-! ## Claims C1, C2 -/

/-- Input refuting C1 as stated: one club holding 7 vouchers. -/
def c1Stats : List ClubStats := [⟨"a", "A", none, none, none, 7⟩]

/-- C1 counterexample: with totalVouchers = 7 > 0, calculate_payouts sets
voucherWorth to round(3000000 / 7, 2) = 428571.43, which is not exactly
3000000 / 7; the claim's "exactly totalPrizePool / totalVouchers" fails. -/
theorem c1_voucher_worth_cex :
    0 < (calculate_payouts c1Stats).2.totalVouchers
    ∧ (calculate_payouts c1Stats).2.voucherWorth ≠
        TOTAL_PRIZE_POOL / (((calculate_payouts c1Stats).2.totalVouchers : ℤ) : ℚ)
    ∧ (calculate_payouts c1Stats).2.voucherWorth = 42857143 / 100 := by
  refine ⟨by decide, by decide, by decide⟩

/-- C1 (amended): calculate_payouts sets totalVouchers to the sum of
voucherCount over the input records, and sets voucherWorth to
round(totalPrizePool / totalVouchers, 2) — the exact quotient rounded
half-to-even to two decimals, hence within 1/200 of it — whenever
totalVouchers is nonzero, and to 0 when totalVouchers is 0. -/
theorem c1_voucher_worth (clubs_stats : List ClubStats) :
    (calculate_payouts clubs_stats).2.totalVouchers
        = (clubs_stats.map (fun c => c.voucherCount)).sum
    ∧ ((calculate_payouts clubs_stats).2.totalVouchers = 0 →
        (calculate_payouts clubs_stats).2.voucherWorth = 0)
    ∧ ((calculate_payouts clubs_stats).2.totalVouchers ≠ 0 →
        (calculate_payouts clubs_stats).2.voucherWorth =
          pyRound2 (TOTAL_PRIZE_POOL /
            (((calculate_payouts clubs_stats).2.totalVouchers : ℤ) : ℚ))
        ∧ |(calculate_payouts clubs_stats).2.voucherWorth -
            TOTAL_PRIZE_POOL /
              (((calculate_payouts clubs_stats).2.totalVouchers : ℤ) : ℚ)|
            ≤ 1/200) := by
  refine ⟨rfl, ?_, ?_⟩
  · intro h
    simp only [calculate_payouts] at h ⊢
    rw [if_pos h]
  · intro h
    simp only [calculate_payouts] at h ⊢
    rw [if_neg h]
    exact ⟨rfl, abs_pyRound2_sub _⟩

theorem c1_voucher_worth_witness :
    (calculate_payouts c1Stats).2.totalVouchers ≠ 0
    ∧ ((calculate_payouts c1Stats).2.voucherWorth =
        pyRound2 (TOTAL_PRIZE_POOL /
          (((calculate_payouts c1Stats).2.totalVouchers : ℤ) : ℚ))
      ∧ |(calculate_payouts c1Stats).2.voucherWorth -
          TOTAL_PRIZE_POOL /
            (((calculate_payouts c1Stats).2.totalVouchers : ℤ) : ℚ)| ≤ 1/200) :=
  ⟨by decide, (c1_voucher_worth c1Stats).2.2 (by decide)⟩

theorem voucherWorth_hundredth (clubs_stats : List ClubStats) :
    ∃ j : ℤ, (calculate_payouts clubs_stats).2.voucherWorth = (j : ℚ) / 100 := by
  simp only [calculate_payouts]
  split_ifs with h
  · exact ⟨0, by norm_num⟩
  · exact ⟨roundHalfEven (TOTAL_PRIZE_POOL /
      (((clubs_stats.map (fun c => c.voucherCount)).sum : ℤ) : ℚ) * 100), rfl⟩

theorem pyRound2_mul_hundredth (v j : ℤ) :
    pyRound2 ((v : ℚ) * ((j : ℚ) / 100)) = roundAway2 ((v : ℚ) * ((j : ℚ) / 100)) := by
  have h : ((v : ℚ) * ((j : ℚ) / 100)) = ((v * j : ℤ) : ℚ) / 100 := by
    push_cast
    ring
  rw [h, pyRound2_intCast_div, roundAway2_intCast_div]

/-- C2: every record emitted by calculate_payouts has
estimatedPayout = voucherCount * voucherWorth rounded to two decimals with
standard (half-away-from-zero) rounding. The source applies Python's
round — half-to-even — but voucherWorth is an exact multiple of 1/100 and
voucherCount an integer, so the product is an exact multiple of 1/100 and
the two rounding modes coincide on it. -/
theorem c2_payout_rounding (clubs_stats : List ClubStats) (r : ClubRecord)
    (hr : r ∈ (calculate_payouts clubs_stats).1) :
    r.estimatedPayout =
      roundAway2 ((r.voucherCount : ℚ) *
        (calculate_payouts clubs_stats).2.voucherWorth) := by
  obtain ⟨j, hj⟩ := voucherWorth_hundredth clubs_stats
  simp only [calculate_payouts, List.mem_map] at hr
  obtain ⟨c, hc, rfl⟩ := hr
  simp only [calculate_payouts] at hj ⊢
  rw [hj]
  exact pyRound2_mul_hundredth c.voucherCount j

/-- Input of the specification's end-to-end example: clubs with 100 and 0
vouchers out of a 3,000,000 pool. -/
def c2Stats : List ClubStats :=
  [⟨"a", "A", none, none, none, 100⟩, ⟨"b", "B", none, none, none, 0⟩]

def c2Rec : ClubRecord := ⟨⟨"a", "A", none, none, none, 100⟩, 3000000⟩

theorem c2_payout_rounding_witness :
    c2Rec ∈ (calculate_payouts c2Stats).1
    ∧ c2Rec.estimatedPayout =
        roundAway2 ((c2Rec.voucherCount : ℚ) *
          (calculate_payouts c2Stats).2.voucherWorth) :=
  ⟨by decide, c2_payout_rounding c2Stats c2Rec (by decide)⟩

/-! ## Claim C9 -/

theorem fetch_club_stats_some {data : Option StatsResponse}
    {d : StatsResponse} (h : fetch_club_stats data = some d) :
    data = some d ∧ d.voucherCount.isSome := by
  cases data with
  | none => simp [fetch_club_stats] at h
  | some d0 =>
    by_cases hv : d0.voucherCount.isSome
    · simp only [fetch_club_stats, if_pos hv, Option.some.injEq] at h
      subst h
      exact ⟨rfl, hv⟩
    · simp [fetch_club_stats, hv] at h

theorem fetch_all_club_stats_eq (clubs : List ClubIdentity)
    (api : String → Option StatsResponse) :
    fetch_all_club_stats clubs api =
      clubs.filterMap (fun cl =>
        (fetch_club_stats (api cl.publicId)).map (fun d =>
          ⟨cl.publicId, cl.name, d.leaderboardRank, d.fanCount,
            d.donationSum, d.voucherCount.getD 0⟩)) := by
  induction clubs with
  | nil => rfl
  | cons c rest ih =>
    cases h : fetch_club_stats (api c.publicId) with
    | none => simp [fetch_all_club_stats, h, ih, List.filterMap_cons]
    | some d => simp [fetch_all_club_stats, h, ih, List.filterMap_cons]

/-- C9: entities whose fetch fails, or whose response lacks the required
voucherCount field, produce no record: the output is exactly the
per-success records in input order (no zero-filled substitute); every
emitted record's voucherCount value was present in the fetched response;
and no record is emitted for an identity whose fetch failed. -/
theorem c9_failure_isolation (clubs : List ClubIdentity)
    (api : String → Option StatsResponse) (c : ClubIdentity)
    (hc : c ∈ clubs) (hfail : fetch_club_stats (api c.publicId) = none) :
    fetch_all_club_stats clubs api =
      clubs.filterMap (fun cl =>
        (fetch_club_stats (api cl.publicId)).map (fun d =>
          ⟨cl.publicId, cl.name, d.leaderboardRank, d.fanCount,
            d.donationSum, d.voucherCount.getD 0⟩))
    ∧ (∀ r ∈ fetch_all_club_stats clubs api, ∃ cl ∈ clubs, ∃ d,
        api cl.publicId = some d ∧ d.voucherCount = some r.voucherCount
        ∧ r.publicId = cl.publicId)
    ∧ (∀ r ∈ fetch_all_club_stats clubs api, r.publicId ≠ c.publicId) := by
  have hmem : ∀ r ∈ fetch_all_club_stats clubs api, ∃ cl ∈ clubs, ∃ d,
      api cl.publicId = some d ∧ d.voucherCount = some r.voucherCount
      ∧ r.publicId = cl.publicId
      ∧ fetch_club_stats (api cl.publicId) = some d := by
    intro r hr
    rw [fetch_all_club_stats_eq, List.mem_filterMap] at hr
    obtain ⟨cl, hcl, hf⟩ := hr
    rw [Option.map_eq_some'] at hf
    obtain ⟨d, hd, hrec⟩ := hf
    obtain ⟨hapi, hvs⟩ := fetch_club_stats_some hd
    obtain ⟨v, hv⟩ := Option.isSome_iff_exists.mp hvs
    refine ⟨cl, hcl, d, hapi, ?_, ?_, hd⟩
    · rw [hv, ← hrec]
      simp [hv]
    · rw [← hrec]
  refine ⟨fetch_all_club_stats_eq clubs api, ?_, ?_⟩
  · intro r hr
    obtain ⟨cl, hcl, d, h1, h2, h3, _⟩ := hmem r hr
    exact ⟨cl, hcl, d, h1, h2, h3⟩
  · intro r hr heq
    obtain ⟨cl, hcl, d, h1, h2, h3, h4⟩ := hmem r hr
    rw [h3] at heq
    rw [heq] at h4
    rw [hfail] at h4
    exact Option.noConfusion h4

def c9Clubs : List ClubIdentity := [⟨"x", "X"⟩, ⟨"y", "Y"⟩]

def c9Api : String → Option StatsResponse := fun pid =>
  if pid = "y" then some ⟨some 5, none, none, none⟩ else none

theorem c9_failure_isolation_witness :
    (⟨"x", "X"⟩ : ClubIdentity) ∈ c9Clubs
    ∧ fetch_club_stats (c9Api (⟨"x", "X"⟩ : ClubIdentity).publicId) = none
    ∧ fetch_all_club_stats c9Clubs c9Api = [⟨"y", "Y", none, none, none, 5⟩]
    ∧ (∀ r ∈ fetch_all_club_stats c9Clubs c9Api,
        r.publicId ≠ (⟨"x", "X"⟩ : ClubIdentity).publicId) :=
  ⟨by decide, by decide, by decide,
   (c9_failure_isolation c9Clubs c9Api ⟨"x", "X"⟩ (by decide) (by decide)).2.2⟩

/-! ## Claim C3 -/

/-- Mock listing API enumerating exactly one club. -/
def c3EnumApi : MockApi where
  walkPages := fun ord ag =>
    match ord, ag with
    | none, none => [some ⟨[⟨some "a", some "A"⟩], none, none⟩]
    | _, _ => []
  extra := fun _ => none

/-- Stats API for which every per-club fetch fails. -/
def c3StatsApi : String → Option StatsResponse := fun _ => none

/-- C3 counterexample: enumeration yields one entity, stats collection
yields zero records, yet the run does not fail — it writes a Snapshot
(both the timestamped artifact and the latest pointer, with
totalVouchers = 0 and voucherWorth = 0) instead of writing none. -/
theorem c3_zero_stats_cex :
    fetch_all_clubs c3EnumApi = [⟨"a", "A"⟩]
    ∧ fetch_all_club_stats (fetch_all_clubs c3EnumApi) c3StatsApi = []
    ∧ mainRun c3EnumApi c3StatsApi =
        ⟨some ⟨⟨⟨0, 0, 0⟩, []⟩, ⟨⟨0, 0, 0⟩, []⟩⟩, true⟩
    ∧ (mainRun c3EnumApi c3StatsApi).written ≠ none := by
  refine ⟨by decide, by decide, by decide, by decide⟩

/-- C3 (amended): the run aborts without writing a Snapshot only when
enumeration yields zero entities (the lock is still released); when
enumeration yields at least one entity but stats collection yields zero
records, the run proceeds and publishes a Snapshot with an empty entity
list, totalVouchers = 0 and voucherWorth = 0, releasing the lock. -/
theorem c3_zero_stats_publishes (enumApi : MockApi)
    (statsApi : String → Option StatsResponse)
    (h1 : fetch_all_clubs enumApi ≠ [])
    (h2 : fetch_all_club_stats (fetch_all_clubs enumApi) statsApi = []) :
    mainRun enumApi statsApi =
      ⟨some ⟨⟨⟨0, 0, 0⟩, []⟩, ⟨⟨0, 0, 0⟩, []⟩⟩, true⟩
    ∧ ∀ api2 : MockApi, fetch_all_clubs api2 = [] →
        mainRun api2 statsApi = ⟨none, true⟩ := by
  constructor
  · have he : (fetch_all_clubs enumApi).isEmpty = false := by
      cases hl : fetch_all_clubs enumApi with
      | nil => exact absurd hl h1
      | cons a l => rfl
    simp only [mainRun, he, Bool.false_eq_true, if_false, h2]
    rfl
  · intro api2 h
    simp only [mainRun, h]
    rfl

theorem c3_zero_stats_publishes_witness :
    fetch_all_clubs c3EnumApi ≠ []
    ∧ fetch_all_club_stats (fetch_all_clubs c3EnumApi) c3StatsApi = []
    ∧ mainRun c3EnumApi c3StatsApi =
        ⟨some ⟨⟨⟨0, 0, 0⟩, []⟩, ⟨⟨0, 0, 0⟩, []⟩⟩, true⟩ :=
  ⟨by decide, by decide,
   (c3_zero_stats_publishes c3EnumApi c3StatsApi (by decide) (by decide)).1⟩

/-! ## Claim C5 -/

/-- Mock listing API whose default-ordering walk returns the same publicId
with two different display names in two different responses. -/
def c5Api : MockApi where
  walkPages := fun ord ag =>
    match ord, ag with
    | none, none =>
      [some ⟨[⟨some "id1", some "A"⟩], none, some "c1"⟩,
       some ⟨[⟨some "id1", some "B"⟩], none, none⟩]
    | _, _ => []
  extra := fun _ => none

/-- C5 counterexample: the enumerator deduplicates by the (publicId, name)
tuple, not by id — when the API returns id1 under display name A and again
under display name B, the final output list contains two elements with
publicId id1, refuting "each id appears in at most one element". -/
theorem c5_dedup_cex :
    fetch_all_clubs c5Api = [⟨"id1", "A"⟩, ⟨"id1", "B"⟩]
    ∧ ((fetch_all_clubs c5Api).countP
        (fun cl => cl.publicId == "id1")) = 2 := by
  refine ⟨by decide, by decide⟩

theorem insertClub_nodup {s : List (String × String)}
    (h : s.Nodup) (t : String × String) : (insertClub s t).Nodup := by
  unfold insertClub
  split_ifs with ht
  · exact h
  · simp [List.nodup_append, h, ht]

theorem addPageClubs_nodup (results : List RawClub) :
    ∀ {s : List (String × String)}, s.Nodup →
      (addPageClubs s results).Nodup := by
  induction results with
  | nil => intro s h; exact h
  | cons club rest ih =>
    intro s h
    unfold addPageClubs at ih ⊢
    rw [List.foldl_cons]
    cases hp : club.publicId with
    | none => simpa [hp] using ih h
    | some p =>
      cases hn : club.name with
      | none => simpa [hp, hn] using ih h
      | some n => simpa [hp, hn] using ih (insertClub_nodup h (p, n))

theorem walkGo_nodup (resps : List (Option PageResponse)) :
    ∀ {s : List (String × String)} (tc : Option Nat) (lc : Option String),
      s.Nodup → ((walkGo s tc lc resps).clubsSet).Nodup := by
  induction resps with
  | nil => intro s tc lc h; exact h
  | cons r rest ih =>
    intro s tc lc h
    cases r with
    | none => exact h
    | some page =>
      show ((walkGo s tc lc (some page :: rest)).clubsSet).Nodup
      unfold walkGo
      by_cases he : page.results.isEmpty
      · simpa [he]
      · by_cases hr : reachedCount (tcUpdate tc page)
            ((addPageClubs s page.results).length)
        · simpa [he, hr] using addPageClubs_nodup page.results h
        · cases hn : page.next with
          | none => simpa [he, hr, hn] using addPageClubs_nodup page.results h
          | some c =>
            by_cases hl : lc = some c
            · simpa [he, hr, hn, hl] using addPageClubs_nodup page.results h
            · simpa [he, hr, hn, hl] using
                ih (tcUpdate tc page) (some c) (addPageClubs_nodup page.results h)

theorem unionClubs_nodup (clubs : List (String × String)) :
    ∀ {global : List (String × String)}, global.Nodup →
      (unionClubs global clubs).Nodup := by
  induction clubs with
  | nil => intro g h; exact h
  | cons t rest ih =>
    intro g h
    unfold unionClubs at ih ⊢
    rw [List.foldl_cons]
    exact ih (insertClub_nodup h t)

theorem tier1_nodup (api : MockApi) (ords : List (Option String)) :
    ∀ {global : List (String × String)} (expected : Option Nat),
      global.Nodup → ((tier1 api global expected ords).1).Nodup := by
  induction ords with
  | nil => intro g e h; exact h
  | cons ord rest ih =>
    intro g e h
    simp only [tier1]
    split_ifs <;>
      first
        | exact unionClubs_nodup _ h
        | exact ih _ (unionClubs_nodup _ h)

theorem tier2Inner_nodup (api : MockApi) (ag : String)
    (ords : List (Option String)) :
    ∀ {global : List (String × String)} (expected : Option Nat),
      global.Nodup → (tier2Inner api ag global expected ords).Nodup := by
  induction ords with
  | nil => intro g e h; exact h
  | cons ord rest ih =>
    intro g e h
    simp only [tier2Inner]
    split_ifs
    · exact unionClubs_nodup _ h
    · exact ih _ (unionClubs_nodup _ h)

theorem tier2_nodup (api : MockApi) (ags : List String) :
    ∀ {global : List (String × String)} (expected : Option Nat),
      global.Nodup → (tier2 api global expected ags).Nodup := by
  induction ags with
  | nil => intro g e h; exact h
  | cons ag rest ih =>
    intro g e h
    simp only [tier2]
    split_ifs
    · exact tier2Inner_nodup api ag tier2Orderings _ h
    · exact ih _ (tier2Inner_nodup api ag tier2Orderings _ h)

/-- C5 (amended): the enumerator's output list is deduplicated keyed by the
(publicId, displayName) tuple: no pair of publicId and name occurs in two
elements of the final output list. (Deduplication by id alone does not
hold, see the counterexample.) -/
theorem fetchAllClubsSet_nodup (api : MockApi) :
    (fetchAllClubsSet api).Nodup := by
  unfold fetchAllClubsSet
  cases htc : tier1 api [] none orderings with
  | mk g1 exp =>
    have h1 : g1.Nodup := by
      have := @tier1_nodup api orderings [] none List.nodup_nil
      rw [htc] at this
      exact this
    cases exp with
    | none => exact tier2_nodup api age_groups none h1
    | some t =>
      dsimp only
      split_ifs
      · exact tier2_nodup api age_groups (some t) h1
      · exact h1

/-- C5 (amended): the enumerator's output list is deduplicated keyed by the
(publicId, displayName) tuple: no pair of publicId and name occurs in two
elements of the final output list. (Deduplication by id alone does not
hold, see the counterexample.) -/
theorem c5_dedup_by_pair (api : MockApi) :
    ((fetch_all_clubs api).map (fun cl => (cl.publicId, cl.name))).Nodup := by
  have h : (fetch_all_clubs api).map (fun cl => (cl.publicId, cl.name))
      = fetchAllClubsSet api := by
    unfold fetch_all_clubs
    rw [List.map_map]
    exact List.map_id _
  rw [h]
  exact fetchAllClubsSet_nodup api

/-! ## Claim C7 -/

/-- One-step unfolding of the walk on a successful response. -/
theorem walkGo_cons_eq (s : List (String × String)) (tc : Option Nat)
    (lc : Option String) (page : PageResponse)
    (rest : List (Option PageResponse)) :
    walkGo s tc lc (some page :: rest) =
      if page.results.isEmpty then ⟨s, tcUpdate tc page, 1, .emptyPage⟩
      else if reachedCount (tcUpdate tc page)
          ((addPageClubs s page.results).length) then
        ⟨addPageClubs s page.results, tcUpdate tc page, 1, .reachedTotal⟩
      else
        match page.next with
        | none => ⟨addPageClubs s page.results, tcUpdate tc page, 1, .noNext⟩
        | some c =>
          if lc = some c then
            ⟨addPageClubs s page.results, tcUpdate tc page, 1, .stuckCursor⟩
          else
            ⟨(walkGo (addPageClubs s page.results) (tcUpdate tc page)
                (some c) rest).clubsSet,
             (walkGo (addPageClubs s page.results) (tcUpdate tc page)
                (some c) rest).totalCount,
             (walkGo (addPageClubs s page.results) (tcUpdate tc page)
                (some c) rest).pagesFetched + 1,
             (walkGo (addPageClubs s page.results) (tcUpdate tc page)
                (some c) rest).reason⟩ := rfl

/-- Either the walk stops on the first response, or that response carried a
fresh next cursor and the walk recursed on the tail with it. -/
theorem walkGo_cons_cases (s : List (String × String)) (tc : Option Nat)
    (lc : Option String) (page : PageResponse)
    (rest : List (Option PageResponse)) :
    (walkGo s tc lc (some page :: rest)).pagesFetched = 1 ∨
    (∃ c, page.next = some c ∧ lc ≠ some c ∧
      (walkGo s tc lc (some page :: rest)).pagesFetched =
        (walkGo (addPageClubs s page.results) (tcUpdate tc page)
          (some c) rest).pagesFetched + 1) := by
  rw [walkGo_cons_eq]
  by_cases he : page.results.isEmpty
  · left
    simp [he]
  · by_cases hr : reachedCount (tcUpdate tc page)
        ((addPageClubs s page.results).length)
    · left
      simp [he, hr]
    · cases hn : page.next with
      | none =>
        left
        simp [he, hr, hn]
      | some c =>
        by_cases hl : lc = some c
        · left
          simp [he, hr, hn, hl]
        · right
          exact ⟨c, rfl, hl, by simp [he, hr, hn, hl]⟩

/-- The next cursor returned by the i-th response of a mock sequence. -/
def nextAt (resps : List (Option PageResponse)) (i : Nat) : Option String :=
  match resps[i]? with
  | some (some p) => p.next
  | _ => none

theorem nextAt_cons (r : Option PageResponse)
    (rest : List (Option PageResponse)) (i : Nat) :
    nextAt (r :: rest) (i + 1) = nextAt rest i := by
  simp [nextAt]

/-- C7: whenever response i and response i+1 of a walk's page sequence
return the same next cursor — the cursor used to request page i+1 comes
back unchanged from it — the walk fetches at most i+2 pages: it stops no
later than that second occurrence and in particular terminates on any
non-advancing mock page sequence. -/
theorem c7_stuck_cursor_guard (i : Nat) :
    ∀ (resps : List (Option PageResponse)) (s : List (String × String))
      (tc : Option Nat) (lc : Option String) (c : String),
      nextAt resps i = some c → nextAt resps (i + 1) = some c →
      (walkGo s tc lc resps).pagesFetched ≤ i + 2 := by
  induction i with
  | zero =>
    intro resps s tc lc c h0 h1
    cases resps with
    | nil => simp [nextAt] at h0
    | cons r rest =>
      cases r with
      | none => simp [nextAt] at h0
      | some p =>
        have hp : p.next = some c := by simpa [nextAt] using h0
        have h1' : nextAt rest 0 = some c := by
          rw [← nextAt_cons (some p) rest 0]
          exact h1
        rcases walkGo_cons_cases s tc lc p rest with h | ⟨c0, hc0, hne, heq⟩
        · rw [h]
          omega
        · rw [heq]
          rw [hp] at hc0
          have hcc : c = c0 := Option.some.inj hc0
          subst hcc
          cases rest with
          | nil => simp [nextAt] at h1'
          | cons r1 rest2 =>
            cases r1 with
            | none => simp [nextAt] at h1'
            | some p1 =>
              have hp1 : p1.next = some c := by simpa [nextAt] using h1'
              rcases walkGo_cons_cases (addPageClubs s p.results)
                  (tcUpdate tc p) (some c) p1 rest2 with h2 | ⟨c1, hc1, hne1, _⟩
              · rw [h2]
              · rw [hp1] at hc1
                have heq1 : c = c1 := Option.some.inj hc1
                subst heq1
                exact absurd rfl hne1
  | succ i ih =>
    intro resps s tc lc c h0 h1
    cases resps with
    | nil => simp [nextAt] at h0
    | cons r rest =>
      have h0' : nextAt rest i = some c := by
        rw [← nextAt_cons r rest i]
        exact h0
      have h1' : nextAt rest (i + 1) = some c := by
        rw [← nextAt_cons r rest (i + 1)]
        exact h1
      cases r with
      | none =>
        show (walkGo s tc lc (none :: rest)).pagesFetched ≤ i + 1 + 2
        dsimp only [walkGo]
        omega
      | some p =>
        rcases walkGo_cons_cases s tc lc p rest with h | ⟨c0, hc0, hne, heq⟩
        · rw [h]
          omega
        · rw [heq]
          have := ih rest (addPageClubs s p.results) (tcUpdate tc p)
            (some c0) c h0' h1'
          omega

/-- Response sequence whose second response echoes back the cursor used to
request it; a third page is present but must never be fetched. -/
def c7Resps : List (Option PageResponse) :=
  [some ⟨[⟨some "a", some "A"⟩], none, some "c"⟩,
   some ⟨[⟨some "b", some "B"⟩], none, some "c"⟩,
   some ⟨[⟨some "d", some "D"⟩], none, some "e"⟩]

theorem c7_stuck_cursor_guard_witness :
    nextAt c7Resps 0 = some "c" ∧ nextAt c7Resps 1 = some "c"
    ∧ (walkGo [] none none c7Resps).pagesFetched ≤ 2
    ∧ (walkGo [] none none c7Resps).pagesFetched = 2
    ∧ (walkGo [] none none c7Resps).reason = .stuckCursor :=
  ⟨by decide, by decide,
   c7_stuck_cursor_guard 0 c7Resps [] none none "c" (by decide) (by decide),
   by decide, by decide⟩

/-! ## Claim C4 -/

/-- Walk of a prior query: one page reporting totalCount 1 and one club;
the walk stops having reported total 1 and found ("a", "A"). -/
def c4Walk1 : List (Option PageResponse) :=
  [some ⟨[⟨some "a", some "A"⟩], some 1, some "c1"⟩]

/-- Walk of the next query: its first response repeats the already-known
club and reports this query's own totalCount 3 with a next cursor; its
second response repeats the club again with no next cursor. -/
def c4Walk2 : List (Option PageResponse) :=
  [some ⟨[⟨some "a", some "A"⟩], some 3, some "c2"⟩,
   some ⟨[⟨some "a", some "A"⟩], none, none⟩]

/-- C4 counterexample: after the first walk the run's global set is
[("a","A")] and a prior response reported totalCount 1, so by the claim the
second walk must terminate once the global set size (1) has reached that
prior total — after its first page, as claimWalkGo does. The code's walk
instead compares its own walk-local set (size 1) against its own query's
first-reported total (3) and fetches a second page. -/
theorem c4_termination_cex :
    (walkGo [] none none c4Walk1).clubsSet = [("a", "A")]
    ∧ (walkGo [] none none c4Walk1).totalCount = some 1
    ∧ (claimWalkGo [("a", "A")] [1] none c4Walk2).2 = 1
    ∧ (walkGo [] none none c4Walk2).pagesFetched = 2 := by
  refine ⟨by decide, by decide, by decide, by decide⟩

/-- C4 (amended): a walk terminates precisely by the conditions the code
checks, in order: a failed page fetch (or missing results key), an empty
page, the walk's own accumulated set size having reached the first
totalCount reported by one of this walk's responses, a missing next cursor,
or a returned cursor equal to the immediately preceding one — the
walk-local set and walk-local total, not the run's global set against
totals from prior responses. walkGo (the code) coincides with specRun
(the condition list) on every response sequence and every starting
state. -/
theorem c4_walk_termination (resps : List (Option PageResponse)) :
    ∀ (s : List (String × String)) (tc : Option Nat) (lc : Option String),
      walkGo s tc lc resps =
        ⟨(specRun ⟨s, tc, lc⟩ resps).1.found,
         (specRun ⟨s, tc, lc⟩ resps).1.firstTotal,
         (specRun ⟨s, tc, lc⟩ resps).2.1,
         (specRun ⟨s, tc, lc⟩ resps).2.2⟩ := by
  induction resps with
  | nil => intro s tc lc; rfl
  | cons r rest ih =>
    intro s tc lc
    cases r with
    | none => rfl
    | some page =>
      simp only [walkGo_cons_eq, specRun, specStep]
      by_cases he : page.results.isEmpty
      · simp [he]
      · by_cases hr : reachedCount (tcUpdate tc page)
            ((addPageClubs s page.results).length)
        · simp [he, hr]
        · cases hn : page.next with
          | none => simp [he, hr, hn]
          | some c =>
            by_cases hl : lc = some c
            · simp [he, hr, hn, hl]
            · simp [he, hr, hn, hl, ih]
